import Mathlib

/-!
# gfx: session state, colour resolution and event translation

A shallow embedding of `src/gfx.c`.  The library keeps its state in file-level
globals (`gfx_fast_color_mode`, `saved_xpos`, `saved_ypos`, `saved_xsize`,
`saved_ysize`) and talks to the X server through Xlib.  Here the globals, the
display's event queue and the log of Xlib output calls form one record that is
passed through every operation.
-/

namespace Gfx

/-! ## Machine integers -/

/-- Two's-complement bit pattern of a 32-bit C `int`, as a natural number. -/
def intBits (x : Int) : Nat := (x % 2 ^ 32).toNat

/-- Conversion of an unsigned value to a 32-bit C `int` (wraps modulo `2 ^ 32`). -/
def toInt32 (n : Nat) : Int :=
  if n % 2 ^ 32 < 2 ^ 31 then ((n % 2 ^ 32 : Nat) : Int)
  else ((n % 2 ^ 32 : Nat) : Int) - 2 ^ 32

/-- Conversion of a C `int` to `unsigned long` (64 bits, as on LP64 targets):
a negative value is sign-extended. -/
def ulongOfInt (x : Int) : Nat := (x % 2 ^ 64).toNat

/-- Conversion of a C `int` to `short` (wraps modulo `2 ^ 16`). -/
def toShort (x : Int) : Int :=
  if x % 2 ^ 16 < 2 ^ 15 then x % 2 ^ 16 else x % 2 ^ 16 - 2 ^ 16

/-- Value of a byte stored in a plain C `char` once promoted to `int`.  Whether
plain `char` is signed is fixed by the target ABI. -/
def charToInt (charSigned : Bool) (byte : Nat) : Int :=
  if charSigned && decide (128 ≤ byte % 256) then ((byte % 256 : Nat) : Int) - 256
  else ((byte % 256 : Nat) : Int)

/-! ## Xlib: event codes, events, requests -/

/-- Event code `KeyPress` of `X11/X.h`. -/
def KeyPress : Nat := 2
/-- Event code `ButtonPress` of `X11/X.h`. -/
def ButtonPress : Nat := 4
/-- Event code `MapNotify` of `X11/X.h`. -/
def MapNotify : Nat := 19
/-- Event code `ConfigureNotify` of `X11/X.h`. -/
def ConfigureNotify : Nat := 22
/-- Event code `MappingNotify` of `X11/X.h`. -/
def MappingNotify : Nat := 34
/-- Key symbol `XK_Home` of `X11/keysymdef.h`. -/
def XK_Home : Nat := 0xff50
/-- Key symbol `XK_Left` of `X11/keysymdef.h`. -/
def XK_Left : Nat := 0xff51

/-- The fields of the `XEvent` union that `gfx.c` reads.  `x`, `y` stand for
`xkey.x`, `xkey.y`, which share their offsets with `xbutton.x`, `xbutton.y`;
`button` is `xbutton.button`; `width`, `height` are `xconfigure.width`,
`xconfigure.height`.  The three `lookup_` fields record what
`XLookupString(&event.xkey, str, sizeof(str), &symbol, 0)` yields for the event:
its return value `r`, the byte `str[0]` and the key symbol `symbol`. -/
structure XEvent where
  type : Nat
  x : Int
  y : Int
  button : Nat
  width : Int
  height : Int
  lookup_r : Int
  lookup_str0 : Nat
  lookup_symbol : Nat
  deriving DecidableEq, Repr

/-- A key press at `(x, y)` whose lookup returns `r` bytes, first byte `c`,
key symbol `sym`. -/
def keyPress (x y r : Int) (c sym : Nat) : XEvent :=
  ⟨KeyPress, x, y, 0, 0, 0, r, c, sym⟩

/-- A button press at `(x, y)` with button id `b`. -/
def buttonPress (x y : Int) (b : Nat) : XEvent :=
  ⟨ButtonPress, x, y, b, 0, 0, 0, 0, 0⟩

/-- A window reconfiguration carrying size `(w, h)`. -/
def configureNotify (w h : Int) : XEvent :=
  ⟨ConfigureNotify, 0, 0, 0, w, h, 0, 0, 0⟩

/-- An event of type code `t` none of whose fields is read. -/
def plainEvent (t : Nat) : XEvent :=
  ⟨t, 0, 0, 0, 0, 0, 0, 0, 0⟩

/-- The Xlib output calls made by the library, in the order issued. -/
inductive XRequest
  | CreateSimpleWindow (width height : Nat)
  | ChangeWindowAttributes
  | StoreName (title : String)
  | SelectInput
  | MapWindow
  | CreateGC
  | SetForeground (pixel : Nat)
  | SetWindowBackground (pixel : Nat)
  | DrawPoint (x y : Int)
  | DrawLine (x1 y1 x2 y2 : Int)
  | ClearWindow
  | Flush
  | DrawRectangle (x y : Int) (width height : Nat)
  | FillRectangle (x y : Int) (width height : Nat)
  | DrawArc (x y : Int) (width height : Nat) (start length : Int)
  | FillArc (x y : Int) (width height : Nat) (start length : Int)
  | FillPolygon (points : List (Int × Int))
  | SetLineAttributes (width : Nat) (style : Option Nat)
  | DrawImageString (x y : Int) (str : List Nat) (len : Int)
  deriving DecidableEq, Repr

/-- What the library cannot decide by itself: the target ABI and the answers of
the X server. -/
structure Env where
  /-- Plain `char` is signed on the target. -/
  charSigned : Bool
  /-- `XOpenDisplay(0)` yields a display. -/
  displayOpens : Bool
  /-- The default visual exists and has class `TrueColor`. -/
  trueColor : Bool
  /-- `WhitePixel` of the default screen, an `unsigned long`. -/
  whitePixel : Nat
  /-- `XAllocColor` on 16-bit channels: the allocated pixel, if any. -/
  XAllocColor : Nat → Nat → Nat → Option Nat

/-- The globals of `gfx.c` together with the display's event queue and the log
of output calls. -/
structure GfxState where
  gfx_fast_color_mode : Bool
  saved_xpos : Int
  saved_ypos : Int
  saved_xsize : Int
  saved_ysize : Int
  foreground : Nat
  queue : List XEvent
  output : List XRequest
  deriving DecidableEq, Repr

/-- The globals as initialised at program start, with event queue `q`. -/
def initState (q : List XEvent) : GfxState :=
  ⟨false, 0, 0, 0, 0, 0, q, []⟩

/-- Record one Xlib output call. -/
def emit (s : GfxState) (r : XRequest) : GfxState :=
  { s with output := s.output ++ [r] }

/-- `XSetForeground(gfx_display, gfx_gc, pixel)`. -/
def XSetForeground (s : GfxState) (pixel : Nat) : GfxState :=
  emit { s with foreground := pixel } (XRequest.SetForeground pixel)

/-- Xlib: whether some event mask selects events of type code `t`.
`XCheckMaskEvent` tests `type < LASTEvent` and `_Xevent_to_mask[type] & mask`;
the table is nonzero for the codes 2 to 28 and for `ColormapNotify` (32), and
zero for `SelectionClear`, `SelectionRequest`, `SelectionNotify` (29 to 31),
`ClientMessage` (33) and `MappingNotify` (34), which no mask can retrieve. -/
def maskable (t : Nat) : Bool :=
  (decide (2 ≤ t) && decide (t ≤ 28)) || decide (t = 32)

/-- `XCheckMaskEvent(gfx_display, -1, &event)`: the first queued event that
some mask selects is removed and returned with the remaining queue; the events
before and after it stay in place. -/
def XCheckMaskEvent : List XEvent → Option (XEvent × List XEvent)
  | [] => none
  | e :: q =>
    if maskable e.type then some (e, q)
    else
      match XCheckMaskEvent q with
      | some (found, q') => some (found, e :: q')
      | none => none

/-- `XPutBackEvent`: push an event onto the head of the queue. -/
def XPutBackEvent (s : GfxState) (event : XEvent) : GfxState :=
  { s with queue := event :: s.queue }

/-! ## The library -/

/-- Result of a call that may block for ever or end the process. -/
inductive OpenResult
  | exited
  | blocked (s : GfxState)
  | returned (s : GfxState)
  deriving DecidableEq, Repr

/-- The loop of `gfx_open`: take events until one has type `MapNotify`. -/
def gfx_open_loop : List XEvent → Option (List XEvent)
  | [] => none
  | e :: q => if e.type = MapNotify then some q else gfx_open_loop q

/-- Open a new graphics window. -/
def gfx_open (env : Env) (s : GfxState) (width height : Int) (title : String) :
    OpenResult :=
  if !env.displayOpens then OpenResult.exited
  else
    let s := { s with gfx_fast_color_mode := env.trueColor }
    let s := emit s (XRequest.CreateSimpleWindow (intBits width) (intBits height))
    let s := emit s XRequest.ChangeWindowAttributes
    let s := emit s (XRequest.StoreName title)
    let s := emit s XRequest.SelectInput
    let s := emit s XRequest.MapWindow
    let s := emit s XRequest.CreateGC
    let whiteColor : Int := toInt32 env.whitePixel
    let s := XSetForeground s (ulongOfInt whiteColor)
    match gfx_open_loop s.queue with
    | none => OpenResult.blocked { s with queue := [] }
    | some q =>
      OpenResult.returned { s with queue := q, saved_xsize := width, saved_ysize := height }

/-- Draw a single point at `(x, y)`. -/
def gfx_point (s : GfxState) (x y : Int) : GfxState :=
  emit s (XRequest.DrawPoint x y)

/-- Draw a line from `(x1, y1)` to `(x2, y2)`. -/
def gfx_line (s : GfxState) (x1 y1 x2 y2 : Int) : GfxState :=
  emit s (XRequest.DrawLine x1 y1 x2 y2)

/-- The pixel of `gfx_color` on a truecolor display. -/
def fastPixel (r g b : Int) : Nat :=
  ((intBits b &&& 0xff) ||| ((intBits g &&& 0xff) <<< 8) ||| ((intBits r &&& 0xff) <<< 16))

/-- The `unsigned short` channel `v << 8` handed to `XAllocColor`. -/
def channel16 (v : Int) : Nat := (intBits v <<< 8) % 2 ^ 16

/-- Change the current drawing color. -/
def gfx_color (env : Env) (s : GfxState) (r g b : Int) : GfxState :=
  if s.gfx_fast_color_mode then
    XSetForeground s (fastPixel r g b)
  else
    XSetForeground s ((env.XAllocColor (channel16 r) (channel16 g) (channel16 b)).getD 0)

/-- Clear the graphics window to the background color. -/
def gfx_clear (s : GfxState) : GfxState :=
  emit s XRequest.ClearWindow

/-- Flush all previous output to the window. -/
def gfx_flush (s : GfxState) : GfxState :=
  emit s XRequest.Flush

/-- Change the current background color. -/
def gfx_background (env : Env) (s : GfxState) (r g b : Int) : GfxState :=
  let pixel := (env.XAllocColor (channel16 r) (channel16 g) (channel16 b)).getD 0
  let s := emit s (XRequest.SetWindowBackground pixel)
  let s := emit s XRequest.ClearWindow
  gfx_flush s

/-- Check to see if an event is waiting.  Every branch of the `while (1)` body
returns, so the body runs once. -/
def gfx_event_waiting (s : GfxState) : Int × GfxState :=
  let s := gfx_flush s
  match XCheckMaskEvent s.queue with
  | some (event, q) =>
    let s := { s with queue := q }
    if event.type = KeyPress then (1, XPutBackEvent s event)
    else if event.type = ButtonPress then (1, XPutBackEvent s event)
    else (0, s)
  | none => (0, s)

/-- The body of the loop of `gfx_wait` after `XNextEvent` delivered `event`:
the new globals and the value returned, if the body returns. -/
def gfx_wait_event (env : Env) (s : GfxState) (event : XEvent) : GfxState × Option Int :=
  if event.type = KeyPress then
    let s := { s with saved_xpos := event.x, saved_ypos := event.y }
    if event.lookup_r = 1 then (s, some (charToInt env.charSigned event.lookup_str0))
    else if 0xff50 ≤ event.lookup_symbol ∧ event.lookup_symbol ≤ 0xff58 then
      (s, some (toInt32 (129 + (event.lookup_symbol - 0xff50))))
    else (s, none)
  else if event.type = ButtonPress then
    let s := { s with saved_xpos := event.x, saved_ypos := event.y }
    (s, some (toInt32 event.button))
  else if event.type = ConfigureNotify then
    ({ s with saved_xsize := event.width, saved_ysize := event.height }, none)
  else (s, none)

/-- Result of `gfx_wait`: the code returned and the state at return, or the
state in which the call blocks in `XNextEvent` on an empty queue. -/
inductive WaitResult
  | returned (code : Int) (s : GfxState)
  | blocked (s : GfxState)
  deriving DecidableEq, Repr

/-- The `while (1)` loop of `gfx_wait` run on the queued events. -/
def gfx_wait_loop (env : Env) : List XEvent → GfxState → WaitResult
  | [], s => WaitResult.blocked { s with queue := [] }
  | event :: q, s =>
    match gfx_wait_event env { s with queue := q } event with
    | (s', some code) => WaitResult.returned code s'
    | (s', none) => gfx_wait_loop env q s'

/-- Wait for the user to press a key or mouse button. -/
def gfx_wait (env : Env) (s : GfxState) : WaitResult :=
  gfx_wait_loop env s.queue (gfx_flush s)

/-- The state a `gfx_wait` call ends in. -/
def WaitResult.state : WaitResult → GfxState
  | WaitResult.returned _ s => s
  | WaitResult.blocked s => s

/-- The code a `gfx_wait` call returns, if it returns. -/
def WaitResult.code : WaitResult → Option Int
  | WaitResult.returned c _ => some c
  | WaitResult.blocked _ => none

/-- X coordinate of the last event. -/
def gfx_xpos (s : GfxState) : Int := s.saved_xpos

/-- Y coordinate of the last event. -/
def gfx_ypos (s : GfxState) : Int := s.saved_ypos

/-- X dimension of the window. -/
def gfx_xsize (s : GfxState) : Int := s.saved_xsize

/-- Y dimension of the window. -/
def gfx_ysize (s : GfxState) : Int := s.saved_ysize

def gfx_rectangle (s : GfxState) (x y : Int) (width height : Nat) : GfxState :=
  emit s (XRequest.DrawRectangle x y width height)

def gfx_fill_rectangle (s : GfxState) (x y : Int) (width height : Nat) : GfxState :=
  emit s (XRequest.FillRectangle x y width height)

def gfx_arc (s : GfxState) (x y : Int) (width height : Nat) (start length : Int) : GfxState :=
  emit s (XRequest.DrawArc x y width height start length)

def gfx_segment (s : GfxState) (x y : Int) (radius : Nat) (start length : Int) : GfxState :=
  gfx_arc s x y radius radius start length

def gfx_fill_arc (s : GfxState) (x y : Int) (width heigth : Nat) (start length : Int) :
    GfxState :=
  emit s (XRequest.FillArc x y width heigth start length)

def gfx_fill_segment (s : GfxState) (x y : Int) (radius : Nat) (start length : Int) :
    GfxState :=
  gfx_fill_arc s x y radius radius start length

def gfx_triangle (s : GfxState) (x1 y1 x2 y2 x3 y3 : Int) : GfxState :=
  let s := emit s (XRequest.DrawLine x1 y1 x2 y2)
  let s := emit s (XRequest.DrawLine x2 y2 x3 y3)
  emit s (XRequest.DrawLine x3 y3 x1 y1)

/-- Fill a triangle; the corners are stored in `XPoint`, whose fields are `short`. -/
def gfx_fill_triangle (s : GfxState) (x1 y1 x2 y2 x3 y3 : Int) : GfxState :=
  emit s (XRequest.FillPolygon
    [(toShort x1, toShort y1), (toShort x2, toShort y2), (toShort x3, toShort y3)])

/-- Line style: `s` is assigned for `style` 0 (`LineSolid`) and 1
(`LineOnOffDash`) only and is indeterminate otherwise. -/
def gfx_line_style (s : GfxState) (width : Nat) (style : Int) : GfxState :=
  let sty : Option Nat := if style = 0 then some 0 else if style = 1 then some 1 else none
  emit s (XRequest.SetLineAttributes width sty)

def gfx_text (s : GfxState) (x y : Int) (str : List Nat) (len : Int) : GfxState :=
  emit s (XRequest.DrawImageString x y str len)

/-! ## Auxiliary notions used in the statements -/

/-- Apply a function to the state a `gfx_wait` call ends in. -/
def WaitResult.map (f : GfxState → GfxState) : WaitResult → WaitResult
  | WaitResult.returned c s => WaitResult.returned c (f s)
  | WaitResult.blocked s => WaitResult.blocked (f s)

/-- Qualifying events: a button press, a key press resolving to exactly one
character, or a key press whose symbol lies in `0xff50..0xff58`. -/
def qualifying (e : XEvent) : Bool :=
  decide (e.type = ButtonPress) ||
    (decide (e.type = KeyPress) &&
      (decide (e.lookup_r = 1) ||
        (decide (0xff50 ≤ e.lookup_symbol) && decide (e.lookup_symbol ≤ 0xff58))))

/-- The globals after the loop body of `gfx_wait` has run on each event of
`pre` in turn. -/
def absorb (env : Env) (s : GfxState) (pre : List XEvent) : GfxState :=
  pre.foldl (fun st e => (gfx_wait_event env st e).1) s

/-- The events a `gfx_wait` call takes from the queue: what was queued at the
call and is no longer queued when the call ends. -/
def consumedByWait (env : Env) (s : GfxState) : List XEvent :=
  s.queue.take (s.queue.length - (gfx_wait env s).state.queue.length)

/-- One step of a client program after `gfx_open` has returned: a call of the
library, or the delivery of an event to the queue by the server. -/
inductive Op
  | point (x y : Int)
  | line (x1 y1 x2 y2 : Int)
  | color (r g b : Int)
  | clear
  | background (r g b : Int)
  | event_waiting
  | wait
  | xpos
  | ypos
  | flush
  | xsize
  | ysize
  | rectangle (x y : Int) (width height : Nat)
  | fill_rectangle (x y : Int) (width height : Nat)
  | arc (x y : Int) (width height : Nat) (start length : Int)
  | segment (x y : Int) (radius : Nat) (start length : Int)
  | fill_arc (x y : Int) (width height : Nat) (start length : Int)
  | fill_segment (x y : Int) (radius : Nat) (start length : Int)
  | triangle (x1 y1 x2 y2 x3 y3 : Int)
  | fill_triangle (x1 y1 x2 y2 x3 y3 : Int)
  | line_style (width : Nat) (style : Int)
  | text (x y : Int) (str : List Nat) (len : Int)
  | deliver (e : XEvent)
  deriving DecidableEq, Repr

/-- The state after one step; for `gfx_wait`, the state it returns or blocks in. -/
def step (env : Env) (s : GfxState) : Op → GfxState
  | Op.point x y => gfx_point s x y
  | Op.line x1 y1 x2 y2 => gfx_line s x1 y1 x2 y2
  | Op.color r g b => gfx_color env s r g b
  | Op.clear => gfx_clear s
  | Op.background r g b => gfx_background env s r g b
  | Op.event_waiting => (gfx_event_waiting s).2
  | Op.wait => (gfx_wait env s).state
  | Op.xpos => s
  | Op.ypos => s
  | Op.flush => gfx_flush s
  | Op.xsize => s
  | Op.ysize => s
  | Op.rectangle x y w h => gfx_rectangle s x y w h
  | Op.fill_rectangle x y w h => gfx_fill_rectangle s x y w h
  | Op.arc x y w h a l => gfx_arc s x y w h a l
  | Op.segment x y r a l => gfx_segment s x y r a l
  | Op.fill_arc x y w h a l => gfx_fill_arc s x y w h a l
  | Op.fill_segment x y r a l => gfx_fill_segment s x y r a l
  | Op.triangle x1 y1 x2 y2 x3 y3 => gfx_triangle s x1 y1 x2 y2 x3 y3
  | Op.fill_triangle x1 y1 x2 y2 x3 y3 => gfx_fill_triangle s x1 y1 x2 y2 x3 y3
  | Op.line_style w st => gfx_line_style s w st
  | Op.text x y str len => gfx_text s x y str len
  | Op.deliver e => { s with queue := s.queue ++ [e] }

/-- Whether the step returns control to the program: every step does, except a
`gfx_wait` that blocks. -/
def stepReturns (env : Env) (s : GfxState) : Op → Bool
  | Op.wait => (gfx_wait env s).code.isSome
  | _ => true

/-- Run a program; a `gfx_wait` that blocks ends the run. -/
def run (env : Env) : GfxState → List Op → GfxState
  | s, [] => s
  | s, op :: ops =>
    if stepReturns env s op then run env (step env s op) ops else step env s op

/-- Whether the step is a `gfx_wait` that takes a `ConfigureNotify` event. -/
def processesResize (env : Env) (s : GfxState) : Op → Bool
  | Op.wait => (consumedByWait env s).any (fun e => decide (e.type = ConfigureNotify))
  | _ => false

/-- No `gfx_wait` of the run takes a `ConfigureNotify` event. -/
def resizeFree (env : Env) : GfxState → List Op → Bool
  | _, [] => true
  | s, op :: ops =>
    !processesResize env s op &&
      (if stepReturns env s op then resizeFree env (step env s op) ops else true)

/-- A truecolor display on a target whose plain `char` is signed. -/
def signedCharEnv : Env := ⟨true, true, true, 0xffffff, fun _ _ _ => none⟩

/-- A palette display on a target whose plain `char` is unsigned. -/
def unsignedCharEnv : Env := ⟨false, true, false, 1, fun r g b => some (r + g + b)⟩

/-- A session on a truecolor display with event queue `q`. -/
def fastState (q : List XEvent) : GfxState :=
  { initState q with gfx_fast_color_mode := true }

/-! ## Arithmetic of the packed pixel -/

theorem pack_eq (r g b : Nat) (hr : r < 256) (hg : g < 256) (hb : b < 256) :
    ((b &&& 0xff) ||| ((g &&& 0xff) <<< 8) ||| ((r &&& 0xff) <<< 16))
      = 2 ^ 16 * r + (2 ^ 8 * g + b) := by
  have e : (0xff : Nat) = 2 ^ 8 - 1 := by norm_num
  have hb8 : b < 2 ^ 8 := by omega
  have hg8 : g < 2 ^ 8 := by omega
  have hr8 : r < 2 ^ 8 := by omega
  rw [e, Nat.and_pow_two_sub_one_of_lt_two_pow hb8, Nat.and_pow_two_sub_one_of_lt_two_pow hg8,
    Nat.and_pow_two_sub_one_of_lt_two_pow hr8, Nat.shiftLeft_eq, Nat.shiftLeft_eq]
  rw [Nat.or_comm b, Nat.mul_comm g, ← Nat.mul_add_lt_is_or hb8, Nat.or_comm, Nat.mul_comm r,
    ← Nat.mul_add_lt_is_or (by omega)]

theorem intBits_of_byte (x : Int) (h0 : 0 ≤ x) (h1 : x ≤ 255) :
    intBits x = x.toNat ∧ x.toNat < 256 := by
  unfold intBits
  constructor
  · congr 1
    exact Int.emod_eq_of_lt h0 (by omega)
  · omega

theorem fastPixel_eq (r g b : Int) (hr0 : 0 ≤ r) (hr : r ≤ 255) (hg0 : 0 ≤ g) (hg : g ≤ 255)
    (hb0 : 0 ≤ b) (hb : b ≤ 255) :
    fastPixel r g b = 2 ^ 16 * r.toNat + (2 ^ 8 * g.toNat + b.toNat) := by
  unfold fastPixel
  rw [(intBits_of_byte r hr0 hr).1, (intBits_of_byte g hg0 hg).1, (intBits_of_byte b hb0 hb).1]
  exact pack_eq _ _ _ (intBits_of_byte r hr0 hr).2 (intBits_of_byte g hg0 hg).2
    (intBits_of_byte b hb0 hb).2

/-! ## The loop of `gfx_wait` -/

theorem gfx_wait_event_queue (env : Env) (s : GfxState) (e : XEvent) (z : List XEvent) :
    gfx_wait_event env { s with queue := z } e
      = ({ (gfx_wait_event env s e).1 with queue := z }, (gfx_wait_event env s e).2) := by
  unfold gfx_wait_event
  split_ifs <;> rfl

theorem gfx_wait_event_emit (env : Env) (s : GfxState) (e : XEvent) (r : XRequest) :
    gfx_wait_event env (emit s r) e
      = (emit (gfx_wait_event env s e).1 r, (gfx_wait_event env s e).2) := by
  unfold gfx_wait_event
  split_ifs <;> rfl

theorem gfx_wait_event_none (env : Env) (s : GfxState) (e : XEvent) :
    (gfx_wait_event env s e).2 = none ↔ qualifying e = false := by
  have d1 : KeyPress ≠ ButtonPress := by decide
  have d2 : ButtonPress ≠ KeyPress := by decide
  have d3 : ConfigureNotify ≠ KeyPress := by decide
  have d4 : ConfigureNotify ≠ ButtonPress := by decide
  unfold gfx_wait_event qualifying
  by_cases hk : e.type = KeyPress
  · by_cases hr : e.lookup_r = 1
    · simp [hk, hr, d1]
    · by_cases hs : 0xff50 ≤ e.lookup_symbol ∧ e.lookup_symbol ≤ 0xff58
      · simp [hk, hr, hs, d1]
      · simp only [hk, hr, hs, d1, if_true, if_false, decide_True, decide_False,
          Bool.false_or, Bool.true_and, true_iff]
        rcases not_and_or.mp hs with h | h <;> simp [h]
  · by_cases hb : e.type = ButtonPress
    · simp [hb, d2]
    · by_cases hc : e.type = ConfigureNotify
      · simp [hc, d3, d4]
      · simp [hk, hb, hc]

theorem gfx_wait_loop_queue (env : Env) (q : List XEvent) (s : GfxState) (z : List XEvent) :
    gfx_wait_loop env q { s with queue := z } = gfx_wait_loop env q s := by
  cases q with
  | nil => rfl
  | cons e q => rfl

theorem gfx_wait_loop_cons_none (env : Env) (e : XEvent) (q : List XEvent) (s : GfxState)
    (h : qualifying e = false) :
    gfx_wait_loop env (e :: q) s = gfx_wait_loop env q (gfx_wait_event env s e).1 := by
  have hn := (gfx_wait_event_none env s e).mpr h
  rw [gfx_wait_loop, gfx_wait_event_queue]
  simp only [hn]
  exact gfx_wait_loop_queue env q _ q

theorem gfx_wait_loop_cons_some (env : Env) (e : XEvent) (q : List XEvent) (s : GfxState)
    (c : Int) (h : (gfx_wait_event env s e).2 = some c) :
    gfx_wait_loop env (e :: q) s
      = WaitResult.returned c { (gfx_wait_event env s e).1 with queue := q } := by
  rw [gfx_wait_loop, gfx_wait_event_queue]
  simp only [h]

theorem gfx_wait_loop_skip (env : Env) (pre q : List XEvent) (s : GfxState)
    (h : ∀ x ∈ pre, qualifying x = false) :
    gfx_wait_loop env (pre ++ q) s = gfx_wait_loop env q (absorb env s pre) := by
  induction pre generalizing s with
  | nil => rfl
  | cons e pre ih =>
    have he : qualifying e = false := h e (List.mem_cons_self e pre)
    have hp : ∀ x ∈ pre, qualifying x = false := fun x hx => h x (List.mem_cons_of_mem e hx)
    rw [List.cons_append, gfx_wait_loop_cons_none env e (pre ++ q) s he, ih _ hp]
    rfl

theorem gfx_wait_loop_all_skip (env : Env) (q : List XEvent) (s : GfxState)
    (h : ∀ x ∈ q, qualifying x = false) :
    gfx_wait_loop env q s = WaitResult.blocked { absorb env s q with queue := [] } := by
  have := gfx_wait_loop_skip env q [] s h
  rw [List.append_nil] at this
  rw [this]
  rfl

theorem gfx_wait_event_sizes (env : Env) (s : GfxState) (e : XEvent)
    (h : e.type ≠ ConfigureNotify) :
    (gfx_wait_event env s e).1.saved_xsize = s.saved_xsize ∧
      (gfx_wait_event env s e).1.saved_ysize = s.saved_ysize := by
  unfold gfx_wait_event
  split_ifs <;> exact ⟨rfl, rfl⟩

theorem gfx_wait_loop_emit (env : Env) (q : List XEvent) (s : GfxState) (r : XRequest) :
    gfx_wait_loop env q (emit s r) = (gfx_wait_loop env q s).map (fun st => emit st r) := by
  induction q generalizing s with
  | nil => rfl
  | cons e q ih =>
    cases hc : (gfx_wait_event env s e).2 with
    | none =>
      have hq := (gfx_wait_event_none env s e).mp hc
      rw [gfx_wait_loop_cons_none env e q _ hq, gfx_wait_loop_cons_none env e q _ hq,
        gfx_wait_event_emit, ih]
    | some c =>
      have hc2 : (gfx_wait_event env (emit s r) e).2 = some c := by
        rw [gfx_wait_event_emit]; exact hc
      rw [gfx_wait_loop_cons_some env e q _ c hc, gfx_wait_loop_cons_some env e q _ c hc2,
        gfx_wait_event_emit]
      rfl

theorem charToInt_spec (cs : Bool) (c : Nat) (h : c ≤ 255) :
    (c ≤ 127 → charToInt cs c = (c : Int)) ∧
      (cs = false → charToInt cs c = (c : Int)) ∧
      (cs = true → 128 ≤ c → charToInt cs c = (c : Int) - 256) := by
  have hm : c % 256 = c := Nat.mod_eq_of_lt (by omega)
  unfold charToInt
  rw [hm]
  refine ⟨fun h1 => ?_, fun h1 => ?_, fun h1 h2 => ?_⟩
  · have : ¬ 128 ≤ c := by omega
    simp [this]
  · simp [h1]
  · simp [h1, h2]

theorem toInt32_small (n : Nat) (h : n < 2 ^ 31) : toInt32 n = (n : Int) := by
  have hm : n % 2 ^ 32 = n := Nat.mod_eq_of_lt (by omega)
  unfold toInt32
  rw [hm, if_pos h]

theorem gfx_wait_reaches (env : Env) (s : GfxState) (pre post : List XEvent) (e : XEvent)
    (c : Int) (hq : s.queue = pre ++ e :: post) (hpre : ∀ x ∈ pre, qualifying x = false)
    (hcode : ∀ t, (gfx_wait_event env t e).2 = some c) :
    gfx_wait env s = WaitResult.returned c
      { (gfx_wait_event env (absorb env (gfx_flush s) pre) e).1 with queue := post } := by
  unfold gfx_wait
  rw [hq, gfx_wait_loop_skip env pre _ _ hpre, gfx_wait_loop_cons_some env e post _ _ (hcode _)]

/-! ## C1: the fast colour path is injective -/

/-- C1: in fast colour mode the pixel that `gfx_color` sets as foreground determines the
triple: for channels in 0..255, equal pixels force equal `r`, `g` and `b`. -/
theorem gfx_color_fast_injective (env env2 : Env) (s s2 : GfxState) (r g b r2 g2 b2 : Int)
    (hs : s.gfx_fast_color_mode = true) (hs2 : s2.gfx_fast_color_mode = true)
    (hr : 0 ≤ r ∧ r ≤ 255) (hg : 0 ≤ g ∧ g ≤ 255) (hb : 0 ≤ b ∧ b ≤ 255)
    (hr2 : 0 ≤ r2 ∧ r2 ≤ 255) (hg2 : 0 ≤ g2 ∧ g2 ≤ 255) (hb2 : 0 ≤ b2 ∧ b2 ≤ 255)
    (h : (gfx_color env s r g b).foreground = (gfx_color env2 s2 r2 g2 b2).foreground) :
    r = r2 ∧ g = g2 ∧ b = b2 := by
  simp only [gfx_color, hs, hs2, if_true, XSetForeground, emit] at h
  rw [fastPixel_eq r g b hr.1 hr.2 hg.1 hg.2 hb.1 hb.2,
    fastPixel_eq r2 g2 b2 hr2.1 hr2.2 hg2.1 hg2.2 hb2.1 hb2.2] at h
  omega

theorem gfx_color_fast_injective_witness :
    (gfx_color signedCharEnv (fastState []) 1 2 3).foreground = 0x010203 ∧
      ((1 : Int) = 1 ∧ (2 : Int) = 2 ∧ (3 : Int) = 3) :=
  ⟨by decide, gfx_color_fast_injective signedCharEnv unsignedCharEnv (fastState [])
    (fastState [plainEvent MapNotify]) 1 2 3 1 2 3 rfl rfl (by decide) (by decide) (by decide)
    (by decide) (by decide) (by decide) (by decide)⟩

/-! ## C2: a key press resolving to one character -/

/-- C2, as amended: when `gfx_wait` reaches a key press whose lookup yields exactly one
character `c` in 0..255 it returns at once with the value of `c` as a plain `char`: `c` itself
for `c` in 0..127 and wherever plain `char` is unsigned, and `c - 256` for `c` in 128..255
where plain `char` is signed. -/
theorem gfx_wait_single_char (env : Env) (s : GfxState) (pre post : List XEvent) (e : XEvent)
    (c : Nat) (hq : s.queue = pre ++ e :: post) (hpre : ∀ x ∈ pre, qualifying x = false)
    (hk : e.type = KeyPress) (hr : e.lookup_r = 1) (hc : e.lookup_str0 = c) (h255 : c ≤ 255) :
    ∃ code s2, gfx_wait env s = WaitResult.returned code s2 ∧ s2.queue = post ∧
      (c ≤ 127 → code = (c : Int)) ∧
      (env.charSigned = false → code = (c : Int)) ∧
      (env.charSigned = true → 128 ≤ c → code = (c : Int) - 256) := by
  have hcode : ∀ t, (gfx_wait_event env t e).2 = some (charToInt env.charSigned c) := by
    intro t
    simp [gfx_wait_event, hk, hr, hc]
  exact ⟨charToInt env.charSigned c, _, gfx_wait_reaches env s pre post e _ hq hpre hcode, rfl,
    charToInt_spec env.charSigned c h255⟩

theorem gfx_wait_single_char_witness :
    ∃ code s2, gfx_wait unsignedCharEnv
        (initState [plainEvent MappingNotify, keyPress 3 4 1 0xE9 0xE9, buttonPress 0 0 1])
        = WaitResult.returned code s2 ∧ s2.queue = [buttonPress 0 0 1] ∧
      (0xE9 ≤ 127 → code = ((0xE9 : Nat) : Int)) ∧
      (unsignedCharEnv.charSigned = false → code = ((0xE9 : Nat) : Int)) ∧
      (unsignedCharEnv.charSigned = true → 128 ≤ 0xE9 → code = ((0xE9 : Nat) : Int) - 256) :=
  gfx_wait_single_char unsignedCharEnv
    (initState [plainEvent MappingNotify, keyPress 3 4 1 0xE9 0xE9, buttonPress 0 0 1])
    [plainEvent MappingNotify] [buttonPress 0 0 1] (keyPress 3 4 1 0xE9 0xE9) 0xE9 rfl
    (by decide) rfl rfl rfl (by decide)

/-- C2 fails as stated: where plain `char` is signed, a key press resolving to the single
byte `0xE9` makes `gfx_wait` return `-23`, not the ordinal `233`. -/
theorem gfx_wait_high_byte_negative :
    (gfx_wait signedCharEnv (initState [keyPress 10 20 1 0xE9 0xE9])).code = some (-23) ∧
      (gfx_wait signedCharEnv (initState [keyPress 10 20 1 0xE9 0xE9])).code
        ≠ some ((0xE9 : Nat) : Int) := by
  constructor <;> decide

/-! ## C3, C4: navigation keys -/

theorem navigation_code (env : Env) (e : XEvent) (hk : e.type = KeyPress)
    (hr : e.lookup_r ≠ 1) (hlo : 0xff50 ≤ e.lookup_symbol) (hhi : e.lookup_symbol ≤ 0xff58) :
    ∀ t, (gfx_wait_event env t e).2 = some (129 + ((e.lookup_symbol : Int) - 0xff50)) := by
  intro t
  have h31 : 129 + (e.lookup_symbol - 0xff50) < 2 ^ 31 := by omega
  have hv : toInt32 (129 + (e.lookup_symbol - 0xff50))
      = 129 + ((e.lookup_symbol : Int) - 0xff50) := by
    rw [toInt32_small _ h31]
    omega
  simp only [gfx_wait_event, hk, hr, if_true, if_false, hlo, hhi, and_self, hv]

/-- C3: when `gfx_wait` reaches a key press whose lookup does not yield exactly one character
and whose symbol `s` lies in `0xff50..0xff58`, it returns `129 + (s - 0xff50)`; the code lies in
129..137, and two such key presses that give the same code have the same symbol. -/
theorem gfx_wait_navigation (env : Env) (s : GfxState) (pre post : List XEvent) (e : XEvent)
    (hq : s.queue = pre ++ e :: post) (hpre : ∀ x ∈ pre, qualifying x = false)
    (hk : e.type = KeyPress) (hr : e.lookup_r ≠ 1)
    (hlo : 0xff50 ≤ e.lookup_symbol) (hhi : e.lookup_symbol ≤ 0xff58) :
    (∃ s2, gfx_wait env s
        = WaitResult.returned (129 + ((e.lookup_symbol : Int) - 0xff50)) s2 ∧ s2.queue = post) ∧
      129 ≤ 129 + ((e.lookup_symbol : Int) - 0xff50) ∧
      129 + ((e.lookup_symbol : Int) - 0xff50) ≤ 137 ∧
      ∀ (t : GfxState) (pre2 post2 : List XEvent) (e2 : XEvent),
        t.queue = pre2 ++ e2 :: post2 → (∀ x ∈ pre2, qualifying x = false) →
        e2.type = KeyPress → e2.lookup_r ≠ 1 →
        0xff50 ≤ e2.lookup_symbol → e2.lookup_symbol ≤ 0xff58 →
        (gfx_wait env t).code = (gfx_wait env s).code → e2.lookup_symbol = e.lookup_symbol := by
  have h1 := gfx_wait_reaches env s pre post e _ hq hpre (navigation_code env e hk hr hlo hhi)
  refine ⟨⟨_, h1, rfl⟩, by omega, by omega, ?_⟩
  intro t pre2 post2 e2 hq2 hpre2 hk2 hr2 hlo2 hhi2 hcode
  have h2 := gfx_wait_reaches env t pre2 post2 e2 _ hq2 hpre2
    (navigation_code env e2 hk2 hr2 hlo2 hhi2)
  rw [h1, h2] at hcode
  simp only [WaitResult.code, Option.some.injEq] at hcode
  omega

theorem gfx_wait_navigation_witness :
    (∃ s2, gfx_wait signedCharEnv (initState [keyPress 7 8 0 0 0xff54, buttonPress 1 1 3])
        = WaitResult.returned (129 + (((keyPress 7 8 0 0 0xff54).lookup_symbol : Int) - 0xff50)) s2
        ∧ s2.queue = [buttonPress 1 1 3]) ∧
      129 ≤ 129 + (((keyPress 7 8 0 0 0xff54).lookup_symbol : Int) - 0xff50) ∧
      129 + (((keyPress 7 8 0 0 0xff54).lookup_symbol : Int) - 0xff50) ≤ 137 ∧
      ∀ (t : GfxState) (pre2 post2 : List XEvent) (e2 : XEvent),
        t.queue = pre2 ++ e2 :: post2 → (∀ x ∈ pre2, qualifying x = false) →
        e2.type = KeyPress → e2.lookup_r ≠ 1 →
        0xff50 ≤ e2.lookup_symbol → e2.lookup_symbol ≤ 0xff58 →
        (gfx_wait signedCharEnv t).code
          = (gfx_wait signedCharEnv
              (initState [keyPress 7 8 0 0 0xff54, buttonPress 1 1 3])).code →
        e2.lookup_symbol = (keyPress 7 8 0 0 0xff54).lookup_symbol :=
  gfx_wait_navigation signedCharEnv (initState [keyPress 7 8 0 0 0xff54, buttonPress 1 1 3])
    [] [buttonPress 1 1 3] (keyPress 7 8 0 0 0xff54) rfl (by decide) rfl (by decide)
    (by decide) (by decide)

/-- C4, as amended: `XK_Left` is `0xff51`, the second symbol of the navigation range, and a
left-arrow key press resolving to no character makes `gfx_wait` return 130; the first symbol of
the range is `XK_Home`, `0xff50`, and a key press of it returns 129. -/
theorem gfx_wait_left_arrow (env : Env) (s : GfxState) (x y : Int) (c : Nat)
    (rest : List XEvent) :
    XK_Left = 0xff50 + 1 ∧ XK_Home = 0xff50 ∧
      (gfx_wait env { s with queue := keyPress x y 0 c XK_Left :: rest }).code = some 130 ∧
      (gfx_wait env { s with queue := keyPress x y 0 c XK_Home :: rest }).code = some 129 := by
  have hL : ∀ t, (gfx_wait_event env t (keyPress x y 0 c XK_Left)).2 = some 130 := by
    intro t
    rw [navigation_code env (keyPress x y 0 c XK_Left) rfl (by simp [keyPress])
      (by simp [keyPress, XK_Left]) (by simp [keyPress, XK_Left]) t]
    norm_num [keyPress, XK_Left]
  have hH : ∀ t, (gfx_wait_event env t (keyPress x y 0 c XK_Home)).2 = some 129 := by
    intro t
    rw [navigation_code env (keyPress x y 0 c XK_Home) rfl (by simp [keyPress])
      (by simp [keyPress, XK_Home]) (by simp [keyPress, XK_Home]) t]
    norm_num [keyPress, XK_Home]
  refine ⟨rfl, rfl, ?_, ?_⟩
  · rw [gfx_wait_reaches env { s with queue := keyPress x y 0 c XK_Left :: rest } [] rest
      (keyPress x y 0 c XK_Left) 130 rfl (by simp) hL]
    rfl
  · rw [gfx_wait_reaches env { s with queue := keyPress x y 0 c XK_Home :: rest } [] rest
      (keyPress x y 0 c XK_Home) 129 rfl (by simp) hH]
    rfl

/-- C4 fails as stated: a left-arrow key press makes `gfx_wait` return 130, not 129, and
`XK_Left` is not the first symbol of the range. -/
theorem gfx_wait_left_arrow_not_129 :
    (gfx_wait signedCharEnv (initState [keyPress 5 6 0 0 XK_Left])).code = some 130 ∧
      (gfx_wait signedCharEnv (initState [keyPress 5 6 0 0 XK_Left])).code ≠ some 129 ∧
      XK_Left ≠ 0xff50 := by
  refine ⟨?_, ?_, ?_⟩ <;> decide

/-! ## C5: button presses -/

/-- C5: when `gfx_wait` reaches a button press at `(px, py)` with button id `b` (a value
that fits a C `int`), it returns `b`, and afterwards `gfx_xpos` is `px` and `gfx_ypos` is `py`,
whatever non-returning events, key presses at other positions included, it took before. -/
theorem gfx_wait_button (env : Env) (s : GfxState) (pre post : List XEvent) (e : XEvent)
    (px py : Int) (b : Nat) (hq : s.queue = pre ++ e :: post)
    (hpre : ∀ x ∈ pre, qualifying x = false) (ht : e.type = ButtonPress)
    (hx : e.x = px) (hy : e.y = py) (hbtn : e.button = b) (hb : b < 2 ^ 31) :
    ∃ s2, gfx_wait env s = WaitResult.returned (b : Int) s2 ∧
      gfx_xpos s2 = px ∧ gfx_ypos s2 = py ∧ s2.queue = post := by
  have d : ButtonPress ≠ KeyPress := by decide
  have hcode : ∀ t, (gfx_wait_event env t e).2 = some (b : Int) := by
    intro t
    simp [gfx_wait_event, ht, d, hbtn, toInt32_small b hb]
  refine ⟨_, gfx_wait_reaches env s pre post e _ hq hpre hcode, ?_, ?_, rfl⟩
  · simp [gfx_xpos, gfx_wait_event, ht, d, hx]
  · simp [gfx_ypos, gfx_wait_event, ht, d, hy]

theorem gfx_wait_button_witness :
    ∃ s2, gfx_wait signedCharEnv
        (initState [keyPress 50 60 0 0 0xffe1, configureNotify 300 200, buttonPress 11 22 3,
          keyPress 1 1 1 97 97])
        = WaitResult.returned ((3 : Nat) : Int) s2 ∧
      gfx_xpos s2 = 11 ∧ gfx_ypos s2 = 22 ∧ s2.queue = [keyPress 1 1 1 97 97] :=
  gfx_wait_button signedCharEnv
    (initState [keyPress 50 60 0 0 0xffe1, configureNotify 300 200, buttonPress 11 22 3,
      keyPress 1 1 1 97 97])
    [keyPress 50 60 0 0 0xffe1, configureNotify 300 200] [keyPress 1 1 1 97 97]
    (buttonPress 11 22 3) 11 22 3 rfl (by decide) rfl rfl rfl rfl (by decide)

/-! ## C6: window reconfiguration -/

theorem absorb_append (env : Env) (s : GfxState) (a b : List XEvent) :
    absorb env s (a ++ b) = absorb env (absorb env s a) b := by
  unfold absorb
  exact List.foldl_append _ _ _ _

theorem absorb_sizes (env : Env) (l : List XEvent) (s : GfxState)
    (h : ∀ x ∈ l, x.type ≠ ConfigureNotify) :
    (absorb env s l).saved_xsize = s.saved_xsize ∧
      (absorb env s l).saved_ysize = s.saved_ysize := by
  induction l generalizing s with
  | nil => exact ⟨rfl, rfl⟩
  | cons a l ih =>
    have ha := gfx_wait_event_sizes env s a (h a (List.mem_cons_self a l))
    have hl := ih (gfx_wait_event env s a).1 (fun x hx => h x (List.mem_cons_of_mem a hx))
    exact ⟨hl.1.trans ha.1, hl.2.trans ha.2⟩

theorem gfx_wait_event_code_state (env : Env) (a b : GfxState) (e : XEvent) :
    (gfx_wait_event env a e).2 = (gfx_wait_event env b e).2 := by
  unfold gfx_wait_event
  split_ifs <;> rfl

theorem qualifying_code (env : Env) (e : XEvent) (h : qualifying e = true) :
    ∃ c, ∀ t, (gfx_wait_event env t e).2 = some c := by
  cases hc : (gfx_wait_event env (initState []) e).2 with
  | none =>
    rw [(gfx_wait_event_none env _ e).mp hc] at h
    exact absurd h (by decide)
  | some c =>
    exact ⟨c, fun t => (gfx_wait_event_code_state env t (initState []) e).trans hc⟩

theorem qualifying_not_configure (e : XEvent) (h : qualifying e = true) :
    e.type ≠ ConfigureNotify := by
  intro hc
  have d3 : ConfigureNotify ≠ KeyPress := by decide
  have d4 : ConfigureNotify ≠ ButtonPress := by decide
  simp [qualifying, hc, d3, d4] at h

theorem gfx_wait_event_pos (env : Env) (s t : GfxState) (e : XEvent)
    (hx : s.saved_xpos = t.saved_xpos) (hy : s.saved_ypos = t.saved_ypos) :
    (gfx_wait_event env s e).1.saved_xpos = (gfx_wait_event env t e).1.saved_xpos ∧
      (gfx_wait_event env s e).1.saved_ypos = (gfx_wait_event env t e).1.saved_ypos := by
  unfold gfx_wait_event
  split_ifs <;> first | exact ⟨rfl, rfl⟩ | exact ⟨hx, hy⟩

theorem gfx_wait_loop_pos (env : Env) (q : List XEvent) (s t : GfxState)
    (hx : s.saved_xpos = t.saved_xpos) (hy : s.saved_ypos = t.saved_ypos) :
    (gfx_wait_loop env q s).code = (gfx_wait_loop env q t).code ∧
      (gfx_wait_loop env q s).state.saved_xpos = (gfx_wait_loop env q t).state.saved_xpos ∧
      (gfx_wait_loop env q s).state.saved_ypos = (gfx_wait_loop env q t).state.saved_ypos ∧
      (gfx_wait_loop env q s).state.queue = (gfx_wait_loop env q t).state.queue := by
  induction q generalizing s t with
  | nil => exact ⟨rfl, hx, hy, rfl⟩
  | cons e q ih =>
    have hp := gfx_wait_event_pos env s t e hx hy
    cases hc : (gfx_wait_event env s e).2 with
    | none =>
      have hq := (gfx_wait_event_none env s e).mp hc
      rw [gfx_wait_loop_cons_none env e q s hq, gfx_wait_loop_cons_none env e q t hq]
      exact ih _ _ hp.1 hp.2
    | some c =>
      have hc2 : (gfx_wait_event env t e).2 = some c :=
        (gfx_wait_event_code_state env t s e).trans hc
      rw [gfx_wait_loop_cons_some env e q s c hc, gfx_wait_loop_cons_some env e q t c hc2]
      exact ⟨rfl, hp.1, hp.2, rfl⟩

theorem gfx_wait_with_queue (env : Env) (s : GfxState) (q : List XEvent) :
    gfx_wait env { s with queue := q } = gfx_wait_loop env q (gfx_flush s) := by
  unfold gfx_wait
  exact gfx_wait_loop_queue env q (gfx_flush s) q

/-- C6: on a `ConfigureNotify` event carrying `(w2, h2)` the loop body of `gfx_wait` stores
the size, leaves the saved cursor position as it was and does not return, and the loop goes on
with the next event.  For a call of `gfx_wait` that reaches the event: if only non-returning
events other than `ConfigureNotify` follow, the call blocks with `gfx_xsize = w2` and
`gfx_ysize = h2`; if after such events a qualifying event follows, the call returns there with
`gfx_xsize = w2`, `gfx_ysize = h2` and the later events still queued; and the code returned,
the position recorded and the events left queued are those of the same call on the queue without
the `ConfigureNotify` event. -/
theorem gfx_wait_configure (env : Env) (s : GfxState) (e : XEvent) (rest : List XEvent)
    (w2 h2 : Int) (ht : e.type = ConfigureNotify) (hw : e.width = w2) (hh : e.height = h2) :
    (gfx_wait_event env s e).2 = none ∧
      gfx_xsize (gfx_wait_event env s e).1 = w2 ∧
      gfx_ysize (gfx_wait_event env s e).1 = h2 ∧
      gfx_xpos (gfx_wait_event env s e).1 = gfx_xpos s ∧
      gfx_ypos (gfx_wait_event env s e).1 = gfx_ypos s ∧
      gfx_wait_loop env (e :: rest) s = gfx_wait_loop env rest (gfx_wait_event env s e).1 ∧
      gfx_wait env { s with queue := e :: rest }
        = gfx_wait_loop env rest
            { gfx_flush s with saved_xsize := w2, saved_ysize := h2 } ∧
      (∀ pre mid : List XEvent, (∀ x ∈ pre, qualifying x = false) →
        (∀ x ∈ mid, qualifying x = false ∧ x.type ≠ ConfigureNotify) →
        (∃ s2, gfx_wait env { s with queue := pre ++ e :: mid } = WaitResult.blocked s2 ∧
          gfx_xsize s2 = w2 ∧ gfx_ysize s2 = h2 ∧ s2.queue = []) ∧
        (∀ (q : XEvent) (post : List XEvent), qualifying q = true →
          ∃ code s2, gfx_wait env { s with queue := pre ++ e :: (mid ++ q :: post) }
              = WaitResult.returned code s2 ∧
            (gfx_wait_event env s q).2 = some code ∧
            gfx_xsize s2 = w2 ∧ gfx_ysize s2 = h2 ∧ s2.queue = post)) ∧
      (∀ pre tail : List XEvent, (∀ x ∈ pre, qualifying x = false) →
        (gfx_wait env { s with queue := pre ++ e :: tail }).code
          = (gfx_wait env { s with queue := pre ++ tail }).code ∧
        gfx_xpos (gfx_wait env { s with queue := pre ++ e :: tail }).state
          = gfx_xpos (gfx_wait env { s with queue := pre ++ tail }).state ∧
        gfx_ypos (gfx_wait env { s with queue := pre ++ e :: tail }).state
          = gfx_ypos (gfx_wait env { s with queue := pre ++ tail }).state ∧
        (gfx_wait env { s with queue := pre ++ e :: tail }).state.queue
          = (gfx_wait env { s with queue := pre ++ tail }).state.queue) := by
  have d3 : ConfigureNotify ≠ KeyPress := by decide
  have d4 : ConfigureNotify ≠ ButtonPress := by decide
  have hq : qualifying e = false := by simp [qualifying, ht, d3, d4]
  have hst : ∀ t, (gfx_wait_event env t e).1
      = { t with saved_xsize := w2, saved_ysize := h2 } := by
    intro t
    simp [gfx_wait_event, ht, d3, d4, hw, hh]
  refine ⟨(gfx_wait_event_none env s e).mpr hq, ?_, ?_, ?_, ?_,
    gfx_wait_loop_cons_none env e rest s hq, ?_, ?_, ?_⟩
  · rw [hst]; rfl
  · rw [hst]; rfl
  · rw [hst]; rfl
  · rw [hst]; rfl
  · unfold gfx_wait
    show gfx_wait_loop env (e :: rest) _ = _
    rw [gfx_wait_loop_cons_none env e rest _ hq, hst]
    exact gfx_wait_loop_queue env rest
      { gfx_flush s with saved_xsize := w2, saved_ysize := h2 } (e :: rest)
  · intro pre mid hpre hmid
    have hmq : ∀ x ∈ mid, qualifying x = false := fun x hx => (hmid x hx).1
    have hmc : ∀ x ∈ mid, x.type ≠ ConfigureNotify := fun x hx => (hmid x hx).2
    have hskip : ∀ x ∈ pre ++ e :: mid, qualifying x = false := by
      intro x hx
      rcases List.mem_append.mp hx with h | h
      · exact hpre x h
      · rcases List.mem_cons.mp h with h | h
        · rw [h]; exact hq
        · exact hmq x h
    have hsz : (absorb env (gfx_flush s) (pre ++ e :: mid)).saved_xsize = w2 ∧
        (absorb env (gfx_flush s) (pre ++ e :: mid)).saved_ysize = h2 := by
      rw [absorb_append]
      have hm := absorb_sizes env mid (gfx_wait_event env (absorb env (gfx_flush s) pre) e).1 hmc
      have he : absorb env (absorb env (gfx_flush s) pre) (e :: mid)
          = absorb env (gfx_wait_event env (absorb env (gfx_flush s) pre) e).1 mid := rfl
      rw [he, hm.1, hm.2, hst]
      exact ⟨rfl, rfl⟩
    constructor
    · refine ⟨{ absorb env (gfx_flush s) (pre ++ e :: mid) with queue := [] }, ?_,
        hsz.1, hsz.2, rfl⟩
      rw [gfx_wait_with_queue]
      exact gfx_wait_loop_all_skip env _ _ hskip
    · intro q post hqq
      obtain ⟨c, hc⟩ := qualifying_code env q hqq
      have hnc := qualifying_not_configure q hqq
      have hev := gfx_wait_event_sizes env (absorb env (gfx_flush s) (pre ++ e :: mid)) q hnc
      refine ⟨c, { (gfx_wait_event env (absorb env (gfx_flush s) (pre ++ e :: mid)) q).1
        with queue := post }, ?_, hc s, hev.1.trans hsz.1, hev.2.trans hsz.2, rfl⟩
      rw [gfx_wait_with_queue]
      have hl : pre ++ e :: (mid ++ q :: post) = (pre ++ e :: mid) ++ q :: post := by simp
      rw [hl, gfx_wait_loop_skip env _ _ _ hskip,
        gfx_wait_loop_cons_some env q post _ c (hc _)]
  · intro pre tail hpre
    rw [gfx_wait_with_queue, gfx_wait_with_queue, gfx_wait_loop_skip env pre _ _ hpre,
      gfx_wait_loop_skip env pre _ _ hpre, gfx_wait_loop_cons_none env e tail _ hq, hst]
    exact gfx_wait_loop_pos env tail _ _ rfl rfl

theorem gfx_wait_configure_witness :
    (∃ s2, gfx_wait signedCharEnv
          (initState ([keyPress 50 60 0 0 0xffe1] ++
            configureNotify 640 480 :: [plainEvent MapNotify]))
          = WaitResult.blocked s2 ∧
        gfx_xsize s2 = 640 ∧ gfx_ysize s2 = 480 ∧ s2.queue = []) ∧
      (∃ code s2, gfx_wait signedCharEnv
          (initState ([keyPress 50 60 0 0 0xffe1] ++
            configureNotify 640 480 ::
              ([plainEvent MapNotify] ++ buttonPress 11 22 3 :: [keyPress 1 1 1 97 97])))
          = WaitResult.returned code s2 ∧
        (gfx_wait_event signedCharEnv (initState []) (buttonPress 11 22 3)).2 = some code ∧
        gfx_xsize s2 = 640 ∧ gfx_ysize s2 = 480 ∧ s2.queue = [keyPress 1 1 1 97 97]) ∧
      (gfx_wait signedCharEnv
          (initState ([keyPress 50 60 0 0 0xffe1] ++
            configureNotify 640 480 :: [buttonPress 11 22 3]))).code
        = (gfx_wait signedCharEnv
          (initState ([keyPress 50 60 0 0 0xffe1] ++ [buttonPress 11 22 3]))).code :=
  ⟨(((gfx_wait_configure signedCharEnv (initState []) (configureNotify 640 480)
        [buttonPress 1 2 1] 640 480 rfl rfl rfl).2.2.2.2.2.2.2.1
        [keyPress 50 60 0 0 0xffe1] [plainEvent MapNotify] (by decide) (by decide)).1),
    (((gfx_wait_configure signedCharEnv (initState []) (configureNotify 640 480)
        [buttonPress 1 2 1] 640 480 rfl rfl rfl).2.2.2.2.2.2.2.1
        [keyPress 50 60 0 0 0xffe1] [plainEvent MapNotify] (by decide) (by decide)).2
        (buttonPress 11 22 3) [keyPress 1 1 1 97 97] (by decide)),
    (((gfx_wait_configure signedCharEnv (initState []) (configureNotify 640 480)
        [buttonPress 1 2 1] 640 480 rfl rfl rfl).2.2.2.2.2.2.2.2
        [keyPress 50 60 0 0 0xffe1] [buttonPress 11 22 3] (by decide)).1)⟩

/-! ## C7, C8: polling -/

theorem XCheckMaskEvent_skip (pre post : List XEvent) (e : XEvent)
    (hpre : ∀ x ∈ pre, maskable x.type = false) (hm : maskable e.type = true) :
    XCheckMaskEvent (pre ++ e :: post) = some (e, pre ++ post) := by
  induction pre with
  | nil => simp [XCheckMaskEvent, hm]
  | cons a pre ih =>
    have ha : maskable a.type = false := hpre a (List.mem_cons_self a pre)
    have hp : ∀ x ∈ pre, maskable x.type = false :=
      fun x hx => hpre x (List.mem_cons_of_mem a hx)
    simp [XCheckMaskEvent, ha, ih hp]

theorem WaitResult.code_map (f : GfxState → GfxState) (r : WaitResult) :
    (r.map f).code = r.code := by
  cases r <;> rfl

theorem WaitResult.state_map (f : GfxState → GfxState) (r : WaitResult) :
    (r.map f).state = f r.state := by
  cases r <;> rfl

theorem gfx_wait_after_flush (env : Env) (s : GfxState) :
    gfx_wait env (gfx_flush s) = (gfx_wait env s).map (fun st => emit st XRequest.Flush) := by
  unfold gfx_wait
  exact gfx_wait_loop_emit env s.queue (gfx_flush s) XRequest.Flush

/-- C7: with a key press or a button press at the head of the queue `gfx_event_waiting`
returns 1 and leaves the queue as it was, and a following `gfx_wait` returns the same code,
records the same position and leaves the same queue as it would have without the poll; on an
empty queue `gfx_event_waiting` returns 0 and the queue stays empty. -/
theorem gfx_event_waiting_press (env : Env) (s : GfxState) :
    (∀ (e : XEvent) (rest : List XEvent), s.queue = e :: rest →
        (e.type = KeyPress ∨ e.type = ButtonPress) →
        (gfx_event_waiting s).1 = 1 ∧ (gfx_event_waiting s).2.queue = s.queue ∧
        (gfx_wait env (gfx_event_waiting s).2).code = (gfx_wait env s).code ∧
        gfx_xpos (gfx_wait env (gfx_event_waiting s).2).state = gfx_xpos (gfx_wait env s).state ∧
        gfx_ypos (gfx_wait env (gfx_event_waiting s).2).state = gfx_ypos (gfx_wait env s).state ∧
        (gfx_wait env (gfx_event_waiting s).2).state.queue = (gfx_wait env s).state.queue) ∧
      (s.queue = [] → (gfx_event_waiting s).1 = 0 ∧ (gfx_event_waiting s).2.queue = []) := by
  constructor
  · intro e rest hq hp
    have hm : maskable e.type = true := by
      rcases hp with h | h <;> rw [h] <;> decide
    have hx : XCheckMaskEvent (e :: rest) = some (e, rest) :=
      XCheckMaskEvent_skip [] rest e (by simp) hm
    have hres : gfx_event_waiting s = (1, gfx_flush s) := by
      cases s
      simp only at hq
      subst hq
      rcases hp with h | h
      · simp [gfx_event_waiting, gfx_flush, emit, hx, h, XPutBackEvent]
      · have d : ButtonPress ≠ KeyPress := by decide
        simp [gfx_event_waiting, gfx_flush, emit, hx, h, d, XPutBackEvent]
    rw [hres]
    simp only []
    rw [gfx_wait_after_flush, WaitResult.code_map, WaitResult.state_map]
    exact ⟨trivial, rfl, rfl, rfl, rfl, rfl⟩
  · intro hq
    simp [gfx_event_waiting, gfx_flush, emit, hq, XCheckMaskEvent]

theorem gfx_event_waiting_press_witness :
    ((gfx_event_waiting (initState [keyPress 4 5 1 97 97, configureNotify 9 9])).1 = 1 ∧
        (gfx_event_waiting (initState [keyPress 4 5 1 97 97, configureNotify 9 9])).2.queue
          = [keyPress 4 5 1 97 97, configureNotify 9 9] ∧
        (gfx_wait signedCharEnv
            (gfx_event_waiting (initState [keyPress 4 5 1 97 97, configureNotify 9 9])).2).code
          = some 97) ∧
      ((gfx_event_waiting (initState [])).1 = 0 ∧ (gfx_event_waiting (initState [])).2.queue = []) :=
  ⟨⟨((gfx_event_waiting_press signedCharEnv
        (initState [keyPress 4 5 1 97 97, configureNotify 9 9])).1
        (keyPress 4 5 1 97 97) [configureNotify 9 9] rfl (Or.inl rfl)).1,
      ((gfx_event_waiting_press signedCharEnv
        (initState [keyPress 4 5 1 97 97, configureNotify 9 9])).1
        (keyPress 4 5 1 97 97) [configureNotify 9 9] rfl (Or.inl rfl)).2.1,
      (((gfx_event_waiting_press signedCharEnv
        (initState [keyPress 4 5 1 97 97, configureNotify 9 9])).1
        (keyPress 4 5 1 97 97) [configureNotify 9 9] rfl (Or.inl rfl)).2.2.1).trans (by decide)⟩,
    (gfx_event_waiting_press signedCharEnv (initState [])).2 rfl⟩

/-- C8, as amended: if the first queued event that an event mask can select (every event
except the unmaskable `ClientMessage`, `MappingNotify`, `SelectionClear`, `SelectionRequest`,
`SelectionNotify`, which `XCheckMaskEvent` passes over) is neither a key press nor a button
press, `gfx_event_waiting` returns 0 and removes exactly that event without acting on it: the
stored size and saved position are unchanged, the events before and after it stay queued in
order, and 0 is returned whatever is queued behind it. -/
theorem gfx_event_waiting_drops_other (s : GfxState) (pre post : List XEvent) (e : XEvent)
    (hq : s.queue = pre ++ e :: post) (hpre : ∀ x ∈ pre, maskable x.type = false)
    (hm : maskable e.type = true) (hk : e.type ≠ KeyPress) (hb : e.type ≠ ButtonPress) :
    (gfx_event_waiting s).1 = 0 ∧ (gfx_event_waiting s).2.queue = pre ++ post ∧
      gfx_xsize (gfx_event_waiting s).2 = gfx_xsize s ∧
      gfx_ysize (gfx_event_waiting s).2 = gfx_ysize s ∧
      gfx_xpos (gfx_event_waiting s).2 = gfx_xpos s ∧
      gfx_ypos (gfx_event_waiting s).2 = gfx_ypos s := by
  have hres : gfx_event_waiting s = (0, { gfx_flush s with queue := pre ++ post }) := by
    have hx := XCheckMaskEvent_skip pre post e hpre hm
    simp [gfx_event_waiting, gfx_flush, emit, hq, hx, hk, hb]
  rw [hres]
  exact ⟨rfl, rfl, rfl, rfl, rfl, rfl⟩

theorem gfx_event_waiting_drops_other_witness :
    (gfx_event_waiting (initState [plainEvent MappingNotify, configureNotify 640 480,
        keyPress 1 2 1 97 97])).1 = 0 ∧
      (gfx_event_waiting (initState [plainEvent MappingNotify, configureNotify 640 480,
        keyPress 1 2 1 97 97])).2.queue = [plainEvent MappingNotify] ++ [keyPress 1 2 1 97 97] ∧
      gfx_xsize (gfx_event_waiting (initState [plainEvent MappingNotify, configureNotify 640 480,
        keyPress 1 2 1 97 97])).2 = gfx_xsize (initState [plainEvent MappingNotify,
        configureNotify 640 480, keyPress 1 2 1 97 97]) ∧
      gfx_ysize (gfx_event_waiting (initState [plainEvent MappingNotify, configureNotify 640 480,
        keyPress 1 2 1 97 97])).2 = gfx_ysize (initState [plainEvent MappingNotify,
        configureNotify 640 480, keyPress 1 2 1 97 97]) ∧
      gfx_xpos (gfx_event_waiting (initState [plainEvent MappingNotify, configureNotify 640 480,
        keyPress 1 2 1 97 97])).2 = gfx_xpos (initState [plainEvent MappingNotify,
        configureNotify 640 480, keyPress 1 2 1 97 97]) ∧
      gfx_ypos (gfx_event_waiting (initState [plainEvent MappingNotify, configureNotify 640 480,
        keyPress 1 2 1 97 97])).2 = gfx_ypos (initState [plainEvent MappingNotify,
        configureNotify 640 480, keyPress 1 2 1 97 97]) :=
  gfx_event_waiting_drops_other
    (initState [plainEvent MappingNotify, configureNotify 640 480, keyPress 1 2 1 97 97])
    [plainEvent MappingNotify] [keyPress 1 2 1 97 97] (configureNotify 640 480) rfl
    (by decide) (by decide) (by decide) (by decide)

/-- C8 fails as stated: with an unmaskable `MappingNotify` at the head of the queue the poll
removes nothing when no maskable event follows, and with a key press queued behind it the poll
returns 1 and puts the key press back in front of the `MappingNotify`. -/
theorem gfx_event_waiting_unmaskable_head :
    (plainEvent MappingNotify).type ≠ KeyPress ∧ (plainEvent MappingNotify).type ≠ ButtonPress ∧
      (gfx_event_waiting (initState [plainEvent MappingNotify])).1 = 0 ∧
      (gfx_event_waiting (initState [plainEvent MappingNotify])).2.queue
        = [plainEvent MappingNotify] ∧
      (gfx_event_waiting (initState [plainEvent MappingNotify, keyPress 1 2 1 97 97])).1 = 1 ∧
      (gfx_event_waiting (initState [plainEvent MappingNotify, keyPress 1 2 1 97 97])).2.queue
        = [keyPress 1 2 1 97 97, plainEvent MappingNotify] := by
  refine ⟨?_, ?_, ?_, ?_, ?_, ?_⟩ <;> decide

/-! ## C10: what `gfx_wait` consumes -/

theorem take_consumed (pre post : List XEvent) (e : XEvent) :
    (pre ++ e :: post).take ((pre ++ e :: post).length - post.length) = pre ++ [e] := by
  have h1 : pre ++ e :: post = (pre ++ [e]) ++ post := by simp
  have h2 : (pre ++ e :: post).length - post.length = (pre ++ [e]).length := by
    simp only [List.length_append, List.length_cons, List.length_nil]
    omega
  rw [h2, h1]
  exact List.take_left _ _

/-- C10: on a queue holding a qualifying event `gfx_wait` returns, takes exactly the events
up to and including the first qualifying one and leaves the later ones queued; a key press that
resolves to other than one character and whose symbol is outside `0xff50..0xff58` makes the loop
body overwrite the saved position and nothing else, without returning; on a queue with no
qualifying event `gfx_wait` takes every event and does not return. -/
theorem gfx_wait_consumes (env : Env) (s : GfxState) :
    (∀ (pre post : List XEvent) (e : XEvent), s.queue = pre ++ e :: post →
        (∀ x ∈ pre, qualifying x = false) → qualifying e = true →
        ∃ code s2, gfx_wait env s = WaitResult.returned code s2 ∧ s2.queue = post ∧
          consumedByWait env s = pre ++ [e]) ∧
      (∀ e : XEvent, e.type = KeyPress → e.lookup_r ≠ 1 →
        ¬ (0xff50 ≤ e.lookup_symbol ∧ e.lookup_symbol ≤ 0xff58) →
        gfx_wait_event env s e = ({ s with saved_xpos := e.x, saved_ypos := e.y }, none)) ∧
      ((∀ x ∈ s.queue, qualifying x = false) →
        ∃ s2, gfx_wait env s = WaitResult.blocked s2 ∧ s2.queue = [] ∧
          consumedByWait env s = s.queue) := by
  refine ⟨?_, ?_, ?_⟩
  · intro pre post e hq hpre he
    cases hc : (gfx_wait_event env (absorb env (gfx_flush s) pre) e).2 with
    | none =>
      rw [(gfx_wait_event_none env _ e).mp hc] at he
      exact absurd he (by decide)
    | some c =>
      have hcode : ∀ t, (gfx_wait_event env t e).2 = some c := by
        intro t
        have : ∀ a b : GfxState, (gfx_wait_event env a e).2 = (gfx_wait_event env b e).2 := by
          intro a b
          unfold gfx_wait_event
          split_ifs <;> rfl
        rw [this t (absorb env (gfx_flush s) pre)]
        exact hc
      have hw := gfx_wait_reaches env s pre post e c hq hpre hcode
      refine ⟨c, _, hw, rfl, ?_⟩
      unfold consumedByWait
      rw [hw, hq]
      exact take_consumed pre post e
  · intro e hk hr hs
    simp [gfx_wait_event, hk, hr, hs]
  · intro hall
    have hw : gfx_wait env s
        = WaitResult.blocked { absorb env (gfx_flush s) s.queue with queue := [] } := by
      unfold gfx_wait
      exact gfx_wait_loop_all_skip env s.queue _ hall
    refine ⟨_, hw, rfl, ?_⟩
    unfold consumedByWait
    rw [hw]
    simp [WaitResult.state]

theorem gfx_wait_consumes_witness :
    (∃ code s2, gfx_wait signedCharEnv
          (initState [keyPress 9 9 0 0 0xffe1, plainEvent MapNotify, keyPress 3 4 1 97 97,
            buttonPress 5 6 1])
          = WaitResult.returned code s2 ∧ s2.queue = [buttonPress 5 6 1] ∧
        consumedByWait signedCharEnv
          (initState [keyPress 9 9 0 0 0xffe1, plainEvent MapNotify, keyPress 3 4 1 97 97,
            buttonPress 5 6 1])
          = [keyPress 9 9 0 0 0xffe1, plainEvent MapNotify] ++ [keyPress 3 4 1 97 97]) ∧
      gfx_wait_event signedCharEnv (initState []) (keyPress 9 9 0 0 0xffe1)
        = ({ initState [] with saved_xpos := 9, saved_ypos := 9 }, none) ∧
      ∃ s2, gfx_wait signedCharEnv (initState [keyPress 9 9 0 0 0xffe1, configureNotify 1 2])
          = WaitResult.blocked s2 ∧ s2.queue = [] ∧
        consumedByWait signedCharEnv (initState [keyPress 9 9 0 0 0xffe1, configureNotify 1 2])
          = (initState [keyPress 9 9 0 0 0xffe1, configureNotify 1 2]).queue :=
  ⟨(gfx_wait_consumes signedCharEnv
      (initState [keyPress 9 9 0 0 0xffe1, plainEvent MapNotify, keyPress 3 4 1 97 97,
        buttonPress 5 6 1])).1
      [keyPress 9 9 0 0 0xffe1, plainEvent MapNotify] [buttonPress 5 6 1]
      (keyPress 3 4 1 97 97) rfl (by decide) (by decide),
    (gfx_wait_consumes signedCharEnv (initState [])).2.1 (keyPress 9 9 0 0 0xffe1) rfl
      (by decide) (by decide),
    (gfx_wait_consumes signedCharEnv
      (initState [keyPress 9 9 0 0 0xffe1, configureNotify 1 2])).2.2 (by decide)⟩

/-! ## C9: the stored window size -/

theorem gfx_wait_loop_sizes (env : Env) (q : List XEvent) (s : GfxState) :
    ∃ pre, q = pre ++ (gfx_wait_loop env q s).state.queue ∧
      ((∀ e ∈ pre, e.type ≠ ConfigureNotify) →
        (gfx_wait_loop env q s).state.saved_xsize = s.saved_xsize ∧
        (gfx_wait_loop env q s).state.saved_ysize = s.saved_ysize) := by
  induction q generalizing s with
  | nil => exact ⟨[], rfl, fun _ => ⟨rfl, rfl⟩⟩
  | cons e q ih =>
    cases hc : (gfx_wait_event env s e).2 with
    | none =>
      have hq := (gfx_wait_event_none env s e).mp hc
      rw [gfx_wait_loop_cons_none env e q s hq]
      obtain ⟨pre, h1, h2⟩ := ih (gfx_wait_event env s e).1
      refine ⟨e :: pre, ?_, ?_⟩
      · rw [List.cons_append, ← h1]
      · intro hall
        have he := gfx_wait_event_sizes env s e (hall e (List.mem_cons_self e pre))
        have hp := h2 (fun x hx => hall x (List.mem_cons_of_mem e hx))
        exact ⟨hp.1.trans he.1, hp.2.trans he.2⟩
    | some c =>
      rw [gfx_wait_loop_cons_some env e q s c hc]
      refine ⟨[e], rfl, ?_⟩
      intro hall
      exact gfx_wait_event_sizes env s e (hall e (List.mem_cons_self e []))

theorem gfx_wait_sizes (env : Env) (s : GfxState)
    (h : processesResize env s Op.wait = false) :
    (gfx_wait env s).state.saved_xsize = s.saved_xsize ∧
      (gfx_wait env s).state.saved_ysize = s.saved_ysize := by
  obtain ⟨pre, h1, h2⟩ := gfx_wait_loop_sizes env s.queue (gfx_flush s)
  have hcons : consumedByWait env s = pre := by
    unfold consumedByWait
    have hl : s.queue.length - (gfx_wait env s).state.queue.length = pre.length := by
      have := congrArg List.length h1
      rw [List.length_append] at this
      unfold gfx_wait
      omega
    rw [hl]
    conv_lhs => rw [h1]
    exact List.take_left _ _
  have hall : ∀ e ∈ pre, e.type ≠ ConfigureNotify := by
    intro e he
    simp only [processesResize, hcons, List.any_eq_false, decide_eq_true_eq] at h
    exact h e he
  exact h2 hall

theorem gfx_event_waiting_sizes (s : GfxState) :
    (gfx_event_waiting s).2.saved_xsize = s.saved_xsize ∧
      (gfx_event_waiting s).2.saved_ysize = s.saved_ysize := by
  unfold gfx_event_waiting
  simp only []
  split
  · split_ifs <;> exact ⟨rfl, rfl⟩
  · exact ⟨rfl, rfl⟩

theorem step_sizes (env : Env) (s : GfxState) (op : Op)
    (h : processesResize env s op = false) :
    (step env s op).saved_xsize = s.saved_xsize ∧
      (step env s op).saved_ysize = s.saved_ysize := by
  cases op
  case wait => exact gfx_wait_sizes env s h
  case event_waiting => exact gfx_event_waiting_sizes s
  case color r g b =>
    simp only [step, gfx_color]
    split_ifs <;> exact ⟨rfl, rfl⟩
  all_goals exact ⟨rfl, rfl⟩

theorem run_sizes (env : Env) (ops : List Op) (s : GfxState)
    (h : resizeFree env s ops = true) :
    (run env s ops).saved_xsize = s.saved_xsize ∧
      (run env s ops).saved_ysize = s.saved_ysize := by
  induction ops generalizing s with
  | nil => exact ⟨rfl, rfl⟩
  | cons op ops ih =>
    simp only [resizeFree, Bool.and_eq_true, Bool.not_eq_true'] at h
    have hs := step_sizes env s op h.1
    unfold run
    by_cases hr : stepReturns env s op = true
    · rw [if_pos hr]
      have h2 := h.2
      rw [if_pos hr] at h2
      have := ih (step env s op) h2
      exact ⟨this.1.trans hs.1, this.2.trans hs.2⟩
    · rw [if_neg hr]
      exact hs

theorem gfx_open_loop_skip (pre post : List XEvent) (m : XEvent)
    (hpre : ∀ x ∈ pre, x.type ≠ MapNotify) (hm : m.type = MapNotify) :
    gfx_open_loop (pre ++ m :: post) = some post := by
  induction pre with
  | nil => simp [gfx_open_loop, hm]
  | cons a pre ih =>
    have ha : a.type ≠ MapNotify := hpre a (List.mem_cons_self a pre)
    have hp : ∀ x ∈ pre, x.type ≠ MapNotify := fun x hx => hpre x (List.mem_cons_of_mem a hx)
    simp [gfx_open_loop, ha, ih hp]

/-- C9: `gfx_open(w, h, title)` returns once a `MapNotify` event is queued, whatever events,
`ConfigureNotify` included, precede it; after it returns `gfx_xsize` is `w` and `gfx_ysize` is
`h`, and they keep these values through every later library call and event delivery of a run in
which no `gfx_wait` takes a `ConfigureNotify` event. -/
theorem gfx_open_size_stable (env : Env) (s0 : GfxState) (w h : Int) (title : String) :
    (∀ (pre post : List XEvent) (m : XEvent), env.displayOpens = true →
        s0.queue = pre ++ m :: post → (∀ x ∈ pre, x.type ≠ MapNotify) → m.type = MapNotify →
        ∃ s1, gfx_open env s0 w h title = OpenResult.returned s1 ∧ s1.queue = post) ∧
      (∀ s1, gfx_open env s0 w h title = OpenResult.returned s1 →
        gfx_xsize s1 = w ∧ gfx_ysize s1 = h ∧
        ∀ ops, resizeFree env s1 ops = true →
          gfx_xsize (run env s1 ops) = w ∧ gfx_ysize (run env s1 ops) = h) := by
  constructor
  · intro pre post m hd hq hpre hm
    have hl := gfx_open_loop_skip pre post m hpre hm
    simp [gfx_open, hd, XSetForeground, emit, hq, hl]
  · intro s1 hs1
    have hsz : s1.saved_xsize = w ∧ s1.saved_ysize = h := by
      unfold gfx_open at hs1
      split_ifs at hs1
      simp only [] at hs1
      split at hs1
      · cases hs1
      · injection hs1 with hs1
        subst hs1
        exact ⟨rfl, rfl⟩
    refine ⟨hsz.1, hsz.2, ?_⟩
    intro ops hops
    have := run_sizes env ops s1 hops
    exact ⟨this.1.trans hsz.1, this.2.trans hsz.2⟩

theorem gfx_open_size_stable_witness :
    (∃ s1, gfx_open signedCharEnv
          (initState [configureNotify 999 888, plainEvent MapNotify, configureNotify 1 2,
            keyPress 3 4 1 97 97]) 640 480 "demo"
          = OpenResult.returned s1 ∧
        s1.queue = [configureNotify 1 2, keyPress 3 4 1 97 97]) ∧
      gfx_xsize (run signedCharEnv
          ⟨true, 0, 0, 640, 480, 0xffffff, [configureNotify 1 2, keyPress 3 4 1 97 97],
            [XRequest.CreateSimpleWindow 640 480, XRequest.ChangeWindowAttributes,
              XRequest.StoreName "demo", XRequest.SelectInput, XRequest.MapWindow,
              XRequest.CreateGC, XRequest.SetForeground 0xffffff]⟩
          [Op.color 10 20 30, Op.event_waiting, Op.point 1 1, Op.deliver (buttonPress 7 8 1),
            Op.wait, Op.xpos, Op.wait, Op.line_style 2 1, Op.flush]) = 640 ∧
      gfx_ysize (run signedCharEnv
          ⟨true, 0, 0, 640, 480, 0xffffff, [configureNotify 1 2, keyPress 3 4 1 97 97],
            [XRequest.CreateSimpleWindow 640 480, XRequest.ChangeWindowAttributes,
              XRequest.StoreName "demo", XRequest.SelectInput, XRequest.MapWindow,
              XRequest.CreateGC, XRequest.SetForeground 0xffffff]⟩
          [Op.color 10 20 30, Op.event_waiting, Op.point 1 1, Op.deliver (buttonPress 7 8 1),
            Op.wait, Op.xpos, Op.wait, Op.line_style 2 1, Op.flush]) = 480 :=
  ⟨(gfx_open_size_stable signedCharEnv
      (initState [configureNotify 999 888, plainEvent MapNotify, configureNotify 1 2,
        keyPress 3 4 1 97 97]) 640 480 "demo").1
      [configureNotify 999 888] [configureNotify 1 2, keyPress 3 4 1 97 97]
      (plainEvent MapNotify) rfl rfl (by decide) rfl,
    ((gfx_open_size_stable signedCharEnv
      (initState [configureNotify 999 888, plainEvent MapNotify, configureNotify 1 2,
        keyPress 3 4 1 97 97]) 640 480 "demo").2
      ⟨true, 0, 0, 640, 480, 0xffffff, [configureNotify 1 2, keyPress 3 4 1 97 97],
        [XRequest.CreateSimpleWindow 640 480, XRequest.ChangeWindowAttributes,
          XRequest.StoreName "demo", XRequest.SelectInput, XRequest.MapWindow,
          XRequest.CreateGC, XRequest.SetForeground 0xffffff]⟩
      (by decide)).2.2
      [Op.color 10 20 30, Op.event_waiting, Op.point 1 1, Op.deliver (buttonPress 7 8 1),
        Op.wait, Op.xpos, Op.wait, Op.line_style 2 1, Op.flush] (by decide)⟩

end Gfx
